import Mathlib

/-!
Verification of the Vista3D MCP broker against its natural-language
specification.  The Python sources (`vista3d_mcp_server.py`,
`task_helpers.py`, `robust_mcp_client.py`) are shallowly embedded below:
pure functions become Lean functions, the filesystem task queue becomes an
explicit list of present paths threaded through the operations, fallible
operations return `Except`, and the Python `re.search` calls of the MR
sequence classifier are interpreted by a small backtracking matcher over a
regex AST transcribed pattern-by-pattern from the source.
-/

set_option maxRecDepth 4000

/-! ## A small regex engine for the classifier patterns

The classifier in `vista3d_mcp_server.py` uses `re.search(pattern, desc,
re.IGNORECASE)` only as a boolean test.  We embed exactly the constructs
those six patterns use: character classes, concatenation, alternation,
star over a character class (laziness versus greediness cannot change
whether a match exists), option, negative lookahead, and the `^`/`$`
anchors.  Case-insensitivity is handled by comparing uppercased characters
(`Char.toUpper`, ASCII case folding, which agrees with Python's on the
ASCII inputs at issue).  `\s` is modelled as the ASCII whitespace set. -/

inductive RE where
  | eps
  | chr (p : Char → Bool)
  | cat (a b : RE)
  | alt (a b : RE)
  | starC (p : Char → Bool)
  | opt (a : RE)
  | nla (a : RE)
  | bol
  | eol

/-- Remainders after consuming any number of `p`-characters (the
possible continuations of `[c]*` at the current position). -/
def starRem (p : Char → Bool) : List Char → List (List Char)
  | [] => [[]]
  | c :: s => (c :: s) :: (if p c then starRem p s else [])

/-- All remainders of the input after a match of the regex starting at the
current position.  `full` is the length of the whole subject string, so
that `bol` can recognise the start of the subject. -/
def mtch (full : Nat) : RE → List Char → List (List Char)
  | .eps, s => [s]
  | .chr _, [] => []
  | .chr p, c :: s => if p c then [s] else []
  | .cat a b, s => (mtch full a s).flatMap (fun s2 => mtch full b s2)
  | .alt a b, s => mtch full a s ++ mtch full b s
  | .starC p, s => starRem p s
  | .opt a, s => s :: mtch full a s
  | .nla a, s => if (mtch full a s).isEmpty then [s] else []
  | .bol, s => if s.length = full then [s] else []
  | .eol, s => if s.isEmpty then [s] else []

/-- Boolean semantics of Python's `re.search`: the pattern matches at some
position of the subject. -/
def research (r : RE) (s : String) : Bool :=
  let cs := s.data
  (List.range (cs.length + 1)).any (fun i => !(mtch cs.length r (cs.drop i)).isEmpty)

/-- Case-insensitive single character. -/
def chCI (ch : Char) : RE := .chr (fun c => c.toUpper == ch.toUpper)

/-- Case-insensitive literal word. -/
def litCI (w : String) : RE := w.data.foldr (fun ch r => RE.cat (chCI ch) r) RE.eps

/-- Character class given by its member characters. -/
def oneOf (cs : String) : RE := .chr (fun c => cs.data.contains c)

/-- Alternation of a list of branches, left to right. -/
def alts : List RE → RE
  | [] => .chr (fun _ => false)
  | [r] => r
  | r :: rs => .alt r (alts rs)

/-- Python `.` (any character but a newline) under a star. -/
def dotStar : RE := .starC (fun c => c != '\n')

/-- ASCII whitespace, the characters of Python's `\s` on ASCII input. -/
def wsChars : String := " \t\n\r\x0b\x0c"

/-- The class `[_\-\s]` (also written `[\s_\-]` in the source). -/
def sepUS : RE := oneOf ("_-" ++ wsChars)

/-- The class `[-_ ]`. -/
def dashUS : RE := oneOf "-_ "

/-- The class `[a-zA-Z0-9]`, under a (lazy) star. -/
def alnumStar : RE := .starC Char.isAlphanum

/-! ## The six classifier patterns

Each is transcribed clause-for-clause from `_classify_mr_sequence` in
`vista3d_mcp_server.py` (lines 86-113); the original pattern string is
quoted above each definition. -/

/-- Sub-pattern `(W|WI)` of the `T1(W|WI)?` and `T2(W|WI)?` clauses. -/
def wwi : RE := alts [litCI "W", litCI "WI"]

/-- Keyword group of `t1_pattern`:
`(T1(W|WI)?|T1[-_ ]?weighted|T1W|MP[_\-\s]?RAGE|SPGR|FSPGR|FLASH|GRE|FFE|TFE|MP2RAGE|BRAVO|VIBE|LAVA|THRIVE|T1C|T1CE|mASTAR)`. -/
def t1_core : RE := alts [
  RE.cat (litCI "T1") (RE.opt wwi),
  RE.cat (litCI "T1") (RE.cat (RE.opt dashUS) (litCI "WEIGHTED")),
  litCI "T1W",
  RE.cat (litCI "MP") (RE.cat (RE.opt sepUS) (litCI "RAGE")),
  litCI "SPGR", litCI "FSPGR", litCI "FLASH", litCI "GRE", litCI "FFE", litCI "TFE",
  litCI "MP2RAGE", litCI "BRAVO", litCI "VIBE", litCI "LAVA", litCI "THRIVE",
  litCI "T1C", litCI "T1CE", litCI "MASTAR"]

/-- `t1_pattern = (^|[_\-\s])(?!.*FLAIR)[a-zA-Z0-9]*?(...)([_\-\s]|$)`. -/
def t1_pattern : RE :=
  RE.cat (RE.alt RE.bol sepUS)
    (RE.cat (RE.nla (RE.cat dotStar (litCI "FLAIR")))
      (RE.cat alnumStar (RE.cat t1_core (RE.alt sepUS RE.eol))))

/-- Contrast indicators `(POST|GAD|CONTRAST|CE|\+C)`. -/
def contrast_kw : RE :=
  alts [litCI "POST", litCI "GAD", litCI "CONTRAST", litCI "CE", litCI "+C"]

/-- T1 family of `t1c_pattern`:
`(T1W|T1(W|WI)?|T1[-_ ]?WEIGHTED|MP[\s_\-]?RAGE|SPGR|FSPGR|FLASH|GRE|FFE|TFE|MP2RAGE|BRAVO)`. -/
def t1fam_b : RE := alts [
  litCI "T1W",
  RE.cat (litCI "T1") (RE.opt wwi),
  RE.cat (litCI "T1") (RE.cat (RE.opt dashUS) (litCI "WEIGHTED")),
  RE.cat (litCI "MP") (RE.cat (RE.opt sepUS) (litCI "RAGE")),
  litCI "SPGR", litCI "FSPGR", litCI "FLASH", litCI "GRE", litCI "FFE", litCI "TFE",
  litCI "MP2RAGE", litCI "BRAVO"]

/-- `t1c_pattern = (^|[\s_\-]).*?((POST|GAD|CONTRAST|CE|\+C).*?(T1 family)|(T1 family).*?(POST|GAD|CONTRAST|CE|\+C)|VIBE|LAVA|THRIVE|T1C|T1CE|MASTAR)([\s_\-]|$)`. -/
def t1c_pattern : RE :=
  RE.cat (RE.alt RE.bol sepUS)
    (RE.cat dotStar
      (RE.cat (alts [
          RE.cat contrast_kw (RE.cat dotStar t1fam_b),
          RE.cat t1fam_b (RE.cat dotStar contrast_kw),
          litCI "VIBE", litCI "LAVA", litCI "THRIVE", litCI "T1C", litCI "T1CE", litCI "MASTAR"])
        (RE.alt sepUS RE.eol)))

/-- Exclusion group of `t1nc_pattern`:
`(POST|GAD|CONTRAST|CE|\+C|VIBE|LAVA|THRIVE|T1C|T1CE|MASTAR)`. -/
def t1nc_excl : RE := alts [
  litCI "POST", litCI "GAD", litCI "CONTRAST", litCI "CE", litCI "+C",
  litCI "VIBE", litCI "LAVA", litCI "THRIVE", litCI "T1C", litCI "T1CE", litCI "MASTAR"]

/-- T1 family of `t1nc_pattern`:
`(T1(W|WI)?|T1[-_ ]?WEIGHTED|T1W|MP[\s_\-]?RAGE|SPGR|FSPGR|FLASH|GRE|FFE|TFE|MP2RAGE|BRAVO)`. -/
def t1fam_nc : RE := alts [
  RE.cat (litCI "T1") (RE.opt wwi),
  RE.cat (litCI "T1") (RE.cat (RE.opt dashUS) (litCI "WEIGHTED")),
  litCI "T1W",
  RE.cat (litCI "MP") (RE.cat (RE.opt sepUS) (litCI "RAGE")),
  litCI "SPGR", litCI "FSPGR", litCI "FLASH", litCI "GRE", litCI "FFE", litCI "TFE",
  litCI "MP2RAGE", litCI "BRAVO"]

/-- `t1nc_pattern = ^(?!.*(excl)).*?([_\-\s]|^)[A-Z0-9]*?(T1 family)([_\-\s]|$)`. -/
def t1nc_pattern : RE :=
  RE.cat RE.bol
    (RE.cat (RE.nla (RE.cat dotStar t1nc_excl))
      (RE.cat dotStar
        (RE.cat (RE.alt sepUS RE.bol)
          (RE.cat alnumStar (RE.cat t1fam_nc (RE.alt sepUS RE.eol))))))

/-- Exclusion group of `t2_pattern`: `(FLAIR|T1W|T1WI|T1[-_ ]?WEIGHTED|T1)`. -/
def t2_excl : RE := alts [
  litCI "FLAIR", litCI "T1W", litCI "T1WI",
  RE.cat (litCI "T1") (RE.cat (RE.opt dashUS) (litCI "WEIGHTED")),
  litCI "T1"]

/-- Keyword group of `t2_pattern`:
`(T2(W|WI)?|T2[-_ ]?WEIGHTED|STIR|FSE|TSE|CISS|SPACE|VISTA|CUBE|PROP(?:ELLER)?|BLADE|FIESTA|TRUEFISP|BSSFP|DRIVE)`. -/
def t2_core : RE := alts [
  RE.cat (litCI "T2") (RE.opt wwi),
  RE.cat (litCI "T2") (RE.cat (RE.opt dashUS) (litCI "WEIGHTED")),
  litCI "STIR", litCI "FSE", litCI "TSE", litCI "CISS", litCI "SPACE", litCI "VISTA",
  litCI "CUBE", RE.cat (litCI "PROP") (RE.opt (litCI "ELLER")), litCI "BLADE",
  litCI "FIESTA", litCI "TRUEFISP", litCI "BSSFP", litCI "DRIVE"]

/-- `t2_pattern = ^(?!.*(excl)).*?([_\-\s]|^)(...)([_\-\s]|$)`. -/
def t2_pattern : RE :=
  RE.cat RE.bol
    (RE.cat (RE.nla (RE.cat dotStar t2_excl))
      (RE.cat dotStar
        (RE.cat (RE.alt sepUS RE.bol) (RE.cat t2_core (RE.alt sepUS RE.eol)))))

/-- Exclusion group of `flair_pattern`: `(T1W|T1WI|T1[-_ ]?WEIGHTED|T1)`. -/
def flair_excl : RE := alts [
  litCI "T1W", litCI "T1WI",
  RE.cat (litCI "T1") (RE.cat (RE.opt dashUS) (litCI "WEIGHTED")),
  litCI "T1"]

/-- Keyword group of `flair_pattern`:
`(FLAIR|T2[\s_\-]?FLAIR|FLAIR[\s_\-]?T2|IR[\s_\-]?(T2|FSE|TSE)?[\s_\-]?FLAIR|FLAIRV\d*|FLUID[\s_\-]?ATTENUATED)`. -/
def flair_core : RE := alts [
  litCI "FLAIR",
  RE.cat (litCI "T2") (RE.cat (RE.opt sepUS) (litCI "FLAIR")),
  RE.cat (litCI "FLAIR") (RE.cat (RE.opt sepUS) (litCI "T2")),
  RE.cat (litCI "IR") (RE.cat (RE.opt sepUS)
    (RE.cat (RE.opt (alts [litCI "T2", litCI "FSE", litCI "TSE"]))
      (RE.cat (RE.opt sepUS) (litCI "FLAIR")))),
  RE.cat (litCI "FLAIRV") (RE.starC Char.isDigit),
  RE.cat (litCI "FLUID") (RE.cat (RE.opt sepUS) (litCI "ATTENUATED"))]

/-- `flair_pattern = ^(?!.*(excl)).*?(...)([\s_\-]|$)`. -/
def flair_pattern : RE :=
  RE.cat RE.bol
    (RE.cat (RE.nla (RE.cat dotStar flair_excl))
      (RE.cat dotStar (RE.cat flair_core (RE.alt sepUS RE.eol))))

/-- Keyword group of `dwi_pattern`:
`(DWI(_?EPI)?|EPI[_\- ]?DWI|Diffusion(_?Weighted)?|DTI(_\d+dir)?|ADC)`. -/
def dwi_core : RE := alts [
  RE.cat (litCI "DWI") (RE.opt (RE.cat (RE.opt (chCI '_')) (litCI "EPI"))),
  RE.cat (litCI "EPI") (RE.cat (RE.opt (oneOf "_- ")) (litCI "DWI")),
  RE.cat (litCI "DIFFUSION") (RE.opt (RE.cat (RE.opt (chCI '_')) (litCI "WEIGHTED"))),
  RE.cat (litCI "DTI") (RE.opt (RE.cat (chCI '_')
    (RE.cat (RE.cat (RE.chr Char.isDigit) (RE.starC Char.isDigit)) (litCI "DIR")))),
  litCI "ADC"]

/-- `dwi_pattern = (^|[_\-\s])[a-zA-Z0-9]*?(...)([_\-\s]|$)`. -/
def dwi_pattern : RE :=
  RE.cat (RE.alt RE.bol sepUS)
    (RE.cat alnumStar (RE.cat dwi_core (RE.alt sepUS RE.eol)))

/-! ## The Sequence Classifier -/

/-- Python's `str.strip()`, on ASCII whitespace. -/
def pyStrip (s : String) : String :=
  String.mk (((s.data.dropWhile (fun c => wsChars.data.contains c)).reverse.dropWhile
    (fun c => wsChars.data.contains c)).reverse)

/-- `Vista3DMCPServer._classify_mr_sequence` (lines 74-116): six ordered
regex tests against the stripped description; `T1NC` is appended only when
`T1` is already in the list and `T1C` is not. -/
def _classify_mr_sequence (series_description : String) : List String :=
  if series_description = "" then []
  else
    let desc := pyStrip series_description
    let matches1 : List String := if research t1_pattern desc then ["T1"] else []
    let matches2 := if research t1c_pattern desc then matches1 ++ ["T1C"] else matches1
    let matches3 :=
      if matches2.contains "T1" && !(matches2.contains "T1C") then
        if research t1nc_pattern desc then matches2 ++ ["T1NC"] else matches2
      else matches2
    let matches4 := if research t2_pattern desc then matches3 ++ ["T2"] else matches3
    let matches5 := if research flair_pattern desc then matches4 ++ ["FLAIR"] else matches4
    if research dwi_pattern desc then matches5 ++ ["DWI"] else matches5

example : _classify_mr_sequence "AX T1 POST GAD" = ["T1", "T1C"] := by rfl
example : _classify_mr_sequence "T1 MPRAGE" = ["T1", "T1NC"] := by rfl
example : _classify_mr_sequence "SAG FLAIR" = ["FLAIR"] := by rfl
example : _classify_mr_sequence "DWI_EPI TRACE" = ["DWI"] := by rfl
example : _classify_mr_sequence "CISS BRAIN" = ["T2"] := by rfl
example : _classify_mr_sequence "" = [] := by rfl

/-! ## The Query Engine (`Vista3DMCPServer.query_patient_images`)

The SQL text construction, filter-key resolution, and per-row sequence
narrowing are pure and embedded directly.  The SQLite connection, the
cached schema document and the database file are the engine's external
inputs and enter as an environment record: `execute` stands for
`cursor.execute(...).fetchall()`, returning either the rows (each a map
from the snake_case aliases of the SELECT list to nullable text values) or
an `sqlite3.Error` message. -/

/-- Python's `str.lower()` (ASCII). -/
def pyLower (s : String) : String := String.mk (s.data.map Char.toLower)

/-- Python's `str.upper()` (ASCII). -/
def pyUpper (s : String) : String := String.mk (s.data.map Char.toUpper)

/-- Python's `str.replace('_', '')`. -/
def delUnderscores (s : String) : String := String.mk (s.data.filter (fun c => c ≠ '_'))

/-- Python's `col.lower().replace(' ', '_')`, the alias given to each
selected column. -/
def pyAlias (col : String) : String :=
  String.mk (col.data.map (fun c => if c.toLower = ' ' then '_' else c.toLower))

/-- Filter-key resolution, the loop of `query_patient_images` lines
364-378: scan the schema columns in order and stop at the first column
that the key matches directly, case-insensitively, or ignoring
underscores and case. -/
def matchColumn (filter_key : String) : List String → Option String
  | [] => none
  | schema_column :: rest =>
    if filter_key = schema_column then some schema_column
    else if pyLower filter_key = pyLower schema_column then some schema_column
    else if delUnderscores (pyLower filter_key) = delUnderscores (pyLower schema_column) then
      some schema_column
    else matchColumn filter_key rest

/-- Modelled from the spec: the resolution order the spec describes for
filter keys — "(a) exact match, (b) case-insensitive match, (c) match
ignoring underscores/case", each tried across the whole column list
before falling to the next — stated only for comparison with the
source-derived `matchColumn`. -/
def resolveColumnSpec (filter_key : String) (table_columns : List String) : Option String :=
  match table_columns.find? (fun c => filter_key = c) with
  | some c => some c
  | none =>
    match table_columns.find? (fun c => pyLower filter_key = pyLower c) with
    | some c => some c
    | none =>
      table_columns.find? (fun c => delUnderscores (pyLower filter_key) = delUnderscores (pyLower c))

/-- The fixed free-text columns that use a `LIKE` predicate (line 382). -/
def text_search_fields : List String :=
  ["PatientID", "PatientName", "SeriesDescription", "ProtocolName"]

/-- Filter loop of `query_patient_images` (lines 357-392): produces the
`AND ...` fragments, the bound-parameter list, and the captured
`sequence_type` value (the last occurrence wins, as repeated assignment
does in the source). -/
def applyFilters (table_columns : List String) :
    List (String × String) → List String × List String × Option String
  | [] => ([], [], none)
  | (filter_key, value) :: rest =>
    let r := applyFilters table_columns rest
    if filter_key = "sequence_type" then
      (r.1, r.2.1, some (r.2.2.getD value))
    else
      match matchColumn filter_key table_columns with
      | some matched_column =>
        if text_search_fields.contains matched_column then
          (("AND " ++ matched_column ++ " LIKE ?") :: r.1,
           ("%" ++ value ++ "%") :: r.2.1, r.2.2)
      else
          (("AND " ++ matched_column ++ " = ?") :: r.1, value :: r.2.1, r.2.2)
      | none => r

/-- SELECT list of line 337-340: every schema column, aliased. -/
def select_columns (table_columns : List String) : List String :=
  table_columns.map (fun col => col ++ " as " ++ pyAlias col)

/-- The `base_query` f-string of lines 349-354, whitespace included. -/
def base_query (table : String) (table_columns : List String) : String :=
  "\n            SELECT DISTINCT \n                "
    ++ String.intercalate ", " (select_columns table_columns)
    ++ "\n            FROM " ++ table ++ " \n            WHERE 1=1\n            "

/-- `final_query` of line 394. -/
def final_query (table : String) (table_columns : List String) (query_parts : List String) : String :=
  base_query table table_columns ++ String.intercalate " " query_parts
    ++ " ORDER BY StudyDate DESC, SeriesDate DESC"

/-- Row-survival test for a requested sequence type, the `continue` chain
of lines 426-436 transcribed branch for branch (`false` means the row is
dropped). -/
def sequenceKeep (requested_type : String) (classified_sequences : List String) : Bool :=
  if !(classified_sequences.contains requested_type) then
    if requested_type = "T1_CONTRAST" && !(classified_sequences.contains "T1C") then false
    else if requested_type = "T1_NO_CONTRAST" && !(classified_sequences.contains "T1NC") then false
    else if !(classified_sequences.contains requested_type) then false
    else true
  else true

/-- First row value whose key lowercases to `series_description`
(lines 412-416), with `row[key] or ""` null handling. -/
def seriesDescOf (row : List (String × Option String)) : String :=
  match row.find? (fun kv => pyLower kv.1 = "series_description") with
  | some kv => kv.2.getD ""
  | none => ""

/-- Patient id and series UID extraction of lines 448-456: a no-break
scan, so the last matching key wins. -/
def patientSeriesOf (row : List (String × Option String)) : String × String :=
  row.foldl (fun acc kv =>
    if ["patientid", "patient_id"].contains (pyLower kv.1) then (kv.2.getD "", acc.2)
    else if ["seriesinstanceuid", "series_instance_uid"].contains (pyLower kv.1) then
      (acc.1, kv.2.getD "")
    else acc) ("", "")

/-- One element of the query result: the row's aliased fields plus the
computed entries of lines 440-465. -/
structure ResultRow where
  fields : List (String × Option String)
  input_file : Option String := none
  output_directory : Option String := none
  classified_sequences : Option (List String) := none
deriving Repr, DecidableEq

/-- Per-row body of the result loop (lines 404-467): `none` means the row
was skipped by the sequence-type narrowing. -/
def processRow (table : String) (requested_sequence_type : Option String)
    (row : List (String × Option String)) : Option ResultRow :=
  let doFilter := decide (requested_sequence_type.getD "" ≠ "") && table == "MR"
  let classified :=
    if doFilter then _classify_mr_sequence (seriesDescOf row) else []
  if doFilter && !(sequenceKeep (pyUpper (requested_sequence_type.getD "")) classified) then none
  else
    let ps := patientSeriesOf row
    some { fields := row
           input_file :=
             if ps.1 ≠ "" ∧ ps.2 ≠ "" then
               some ("C:\\ARTDaemon\\Segman\\dcm2nifti\\" ++ ps.1 ++ "\\" ++ ps.2 ++ "\\image.nii.gz")
             else none
           output_directory :=
             if ps.1 ≠ "" ∧ ps.2 ≠ "" then
               some ("C:\\ARTDaemon\\Segman\\dcm2nifti\\" ++ ps.1 ++ "\\" ++ ps.2 ++ "\\Vista3D\\")
             else none
           classified_sequences := if table == "MR" then some classified else none }

/-- External inputs of the Query Engine: the database file's presence, the
cached schema document (`none` models a load/parse failure carrying the
exception text), and the SQLite execution of the finished statement. -/
structure QueryEnv where
  db_path : String
  dbExists : Bool
  schema : Option (List (String × List String))
  schemaError : String := ""
  execute : String → List String → Except String (List (List (String × Option String)))

/-- Overall result of `query_patient_images`: the source returns a
singleton `[{"error": msg}]` in place of the record list on any failure,
modelled as a dedicated constructor. -/
inductive QueryOutcome where
  | failure (msg : String)
  | success (rows : List ResultRow)

/-- `Vista3DMCPServer.query_patient_images` (lines 292-482). -/
def query_patient_images (env : QueryEnv) (modality : Option String)
    (filters : List (String × String)) : QueryOutcome :=
  if !env.dbExists then .failure ("Database not found at " ++ env.db_path)
  else
    let table :=
      if modality = some "MR" then "MR"
      else if modality = some "CT" then "CT"
      else if modality = some "PT" then "PT"
      else "MR"
    match env.schema with
    | none => .failure ("Could not load schema: " ++ env.schemaError)
    | some tables =>
      match tables.lookup table with
      | none => .failure ("Table " ++ table ++ " not found in schema")
      | some table_columns =>
        let fr := applyFilters table_columns filters
        match env.execute (final_query table table_columns fr.1) fr.2.1 with
        | .error e => .failure ("Database query failed: " ++ e)
        | .ok rows => .success (rows.filterMap (processRow table fr.2.2))

example : matchColumn "PatientID" ["patient_id", "PatientID"] = some "patient_id" := by rfl
example : resolveColumnSpec "PatientID" ["patient_id", "PatientID"] = some "PatientID" := by rfl
example : sequenceKeep "T1_CONTRAST" ["T1", "T1C"] = false := by rfl
example : sequenceKeep "T1C" ["T1", "T1C"] = true := by rfl
example :
    processRow "MR" (some "T1_CONTRAST") [("series_description", some "AX T1 POST GAD")] = none := by
  rfl

/-! ## JSON values and Python truthiness

Tool arguments arrive as JSON; the handlers test them with Python
truthiness (`if not x`) and compare them to string literals. -/

inductive JValue where
  | null
  | bool (b : Bool)
  | num (n : Int)
  | str (s : String)
  | arr (elems : List JValue)
  | obj (fields : List (String × JValue))

/-- Python truthiness of a JSON value (`None`, `0`, `""`, `[]`, and an
empty object are falsy). -/
def JValue.truthy : JValue → Bool
  | .null => false
  | .bool b => b
  | .num n => n != 0
  | .str s => s != ""
  | .arr elems => !elems.isEmpty
  | .obj fields => !fields.isEmpty

/-- Equality test with a string literal (`v == "positive"` in Python is
true exactly when `v` is that string). -/
def JValue.isStr : JValue → String → Bool
  | .str t, s => t == s
  | _, _ => false

/-- Truthiness of `dict.get(...)`: an absent key yields falsy `None`. -/
def pyTruthyOpt : Option JValue → Bool
  | none => false
  | some v => v.truthy

/-- Python `point["key"]`: a missing key raises `KeyError` (whose `str` is
the quoted key); subscripting a non-object raises a `TypeError`. -/
def jGetItem (v : JValue) (k : String) : Except String JValue :=
  match v with
  | .obj fields =>
    match fields.lookup k with
    | some x => .ok x
    | none => .error ("'" ++ k ++ "'")
  | _ => .error "object is not subscriptable"

/-! ## Task documents and their constructors -/

/-- One entry of `segmentation_prompts` (`create_vista3d_task`,
lines 158-164).  Point payloads are kept as the JSON values the caller
supplied, as the source does. -/
structure SegPrompt where
  target_output_label : Int
  positive_points : List JValue
  negative_points : List JValue

/-- The point-task document of `create_vista3d_task` (lines 153-172);
`patientId`/`seriesInstanceUID` are present only when truthy. -/
structure PointTask where
  task_id : String
  input_file : JValue
  output_directory : JValue
  segmentation_type : String
  segmentation_prompts : List SegPrompt
  modality : String
  patientId : Option JValue := none
  seriesInstanceUID : Option JValue := none

/-- The full-body task document of `create_full_body_task`
(lines 198-211). -/
structure FullBodyTask where
  task_id : String
  input_file : JValue
  output_directory : JValue
  segmentation_type : String
  description : Option JValue := none
  patientId : Option JValue := none
  seriesInstanceUID : Option JValue := none

/-- `generate_task_id` (lines 130-133): the source's `prefix` argument
(renamed `pre`, a reserved word in Lean) plus the millisecond timestamp;
the clock reading is a parameter `now_ms`. -/
def generate_task_id (now_ms : Nat) (pre : String) : String :=
  pre ++ "_" ++ toString now_ms

/-- Additional-points loop of `create_vista3d_task` (lines 174-180):
`point["type"]` and `point["coordinates"]` can raise `KeyError`; a point
whose type is neither `"positive"` nor `"negative"` is skipped. -/
def processAdditionalPoints : SegPrompt → List JValue → Except String SegPrompt
  | prompt, [] => .ok prompt
  | prompt, point :: rest =>
    match jGetItem point "type" with
    | .error e => .error e
    | .ok t =>
      if t.isStr "positive" then
        match jGetItem point "coordinates" with
        | .error e => .error e
        | .ok c =>
          processAdditionalPoints
            { prompt with positive_points := prompt.positive_points ++ [c] } rest
      else if t.isStr "negative" then
        match jGetItem point "coordinates" with
        | .error e => .error e
        | .ok c =>
          processAdditionalPoints
            { prompt with negative_points := prompt.negative_points ++ [c] } rest
      else processAdditionalPoints prompt rest

/-- `Vista3DMCPServer.create_vista3d_task` (lines 135-182). -/
def create_vista3d_task (point_coordinates : JValue) (input_file output_directory : JValue)
    (point_type : JValue) (label : Int) (additional_points : JValue)
    (patient_id : Option JValue) (modality : String) (series_uid : Option JValue)
    (task_id : Option String) (now_ms : Nat) : Except String PointTask :=
  let tid := task_id.getD (generate_task_id now_ms "vista3d_point")
  let prompt : SegPrompt :=
    { target_output_label := label
      positive_points := if point_type.isStr "positive" then [point_coordinates] else []
      negative_points := if point_type.isStr "negative" then [point_coordinates] else [] }
  let base : PointTask :=
    { task_id := tid, input_file := input_file, output_directory := output_directory
      segmentation_type := "point", segmentation_prompts := [prompt], modality := modality
      patientId := if pyTruthyOpt patient_id then patient_id else none
      seriesInstanceUID := if pyTruthyOpt series_uid then series_uid else none }
  if additional_points.truthy then
    match additional_points with
    | .arr points =>
      match processAdditionalPoints prompt points with
      | .error e => .error e
      | .ok prompt2 => .ok { base with segmentation_prompts := [prompt2] }
    | _ => .error "object is not iterable"
  else .ok base

/-- `Vista3DMCPServer.create_full_body_task` (lines 184-213). -/
def create_full_body_task (input_file output_directory : JValue) (description : Option JValue)
    (patient_id : Option JValue) (series_uid : Option JValue) (task_id : Option String)
    (now_ms : Nat) : FullBodyTask :=
  let tid := task_id.getD (generate_task_id now_ms "full_body")
  { task_id := tid, input_file := input_file, output_directory := output_directory
    segmentation_type := "full"
    description := if pyTruthyOpt description then description else none
    patientId := if pyTruthyOpt patient_id then patient_id else none
    seriesInstanceUID := if pyTruthyOpt series_uid then series_uid else none }

/-! ## Task Store

The queue directories are modelled as the list of file paths currently
present; a write prepends the written path.  Document contents are not
tracked: no claim reads a task document back, only paths and presence
matter.  The possibility that `open`/`json.dump` fails is the write
environment's choice, passed as `writeError`; the source wraps that
exception text.  Reading a `_result` sidecar is the external observation
`readJson`, returning either the parsed object (flattened to string
fields) or the exception text of a parse failure. -/

/-- A submitted task document, for `submit_task`'s `task["task_id"]`. -/
inductive TaskDoc where
  | point (t : PointTask)
  | fullBody (t : FullBodyTask)

/-- Identity of a task document. -/
def TaskDoc.task_id : TaskDoc → String
  | .point t => t.task_id
  | .fullBody t => t.task_id

/-- `Vista3DMCPServer.submit_task` (lines 215-226): write
`{task_id}.tsk` into the Vista3D tasks folder, returning the path; a
write failure surfaces as `Failed to submit task: ...`. -/
def submit_task (vista3d_tasks_path : String) (writeError : Option String)
    (task : TaskDoc) (fs : List String) : Except String (String × List String) :=
  let filename := task.task_id ++ ".tsk"
  let task_file_path := vista3d_tasks_path ++ "/" ++ filename
  match writeError with
  | some e => .error ("Failed to submit task: " ++ e)
  | none => .ok (task_file_path, task_file_path :: fs)

/-- Status record returned by the server's probe (`check_task_status`,
lines 228-268); absent dict keys are `none`. -/
structure TaskStatusInfo where
  status : String
  task_id : Option String := none
  message : Option String := none
  processed_file : Option String := none
  result : Option (List (String × String)) := none
  output_mask : Option String := none
  result_error : Option String := none
deriving Repr, DecidableEq

/-- `Vista3DMCPServer.check_task_status` (lines 228-268): probe the
pending file, then the processed file (attaching the `_result` sidecar,
with a parse failure recorded in `result_error`), else `not_found`.
The source has no probe of a failed location. -/
def check_task_status (vista3d_tasks_path vista3d_processed_path : String) (task_id : String)
    (fs : List String) (readJson : String → Except String (List (String × String))) :
    TaskStatusInfo :=
  let pending_file := vista3d_tasks_path ++ "/" ++ task_id ++ ".tsk"
  if fs.contains pending_file then
    { status := "pending", task_id := some task_id
      message := some "Task is queued for processing" }
  else
    let processed_file := vista3d_processed_path ++ "/" ++ task_id ++ ".json"
    let result_file := vista3d_processed_path ++ "/" ++ task_id ++ "_result.json"
    if fs.contains processed_file then
      let base : TaskStatusInfo :=
        { status := "processed", task_id := some task_id
          processed_file := some processed_file }
      if fs.contains result_file then
        match readJson result_file with
        | .ok result_data =>
          { base with result := some result_data
                      output_mask := result_data.lookup "output_mask" }
        | .error e => { base with result_error := some e }
      else base
    else
      { status := "not_found", task_id := some task_id
        message := some "Task not found in any location" }

/-- Status record of the helper probe (`task_helpers.check_task_status`,
lines 244-283). -/
structure HelperStatus where
  status : String
  file : Option String := none
  result : Option (List (String × String)) := none
deriving Repr, DecidableEq

/-- `task_helpers.submit_task` (lines 156-188) in the default-filename
case used by every caller in the source: the filename is
`{task_id}.json`, written under `{base}/{folder}`. -/
def th_submit_task (task_id : String) (task_folder : String) (tasks_base_path : String)
    (fs : List String) : String × List String :=
  let filename := task_id ++ ".json"
  let folder_path := tasks_base_path ++ "/" ++ task_folder
  let task_file_path := folder_path ++ "/" ++ filename
  (task_file_path, task_file_path :: fs)

/-- `task_helpers.check_task_status` (lines 244-283): pending in the
task folder, processed under `processed/` (a sidecar parse failure
propagates — that branch has no `try`), failed under `failed/`, else
`not_found`. -/
def th_check_task_status (task_id task_folder : String) (tasks_base_path : String)
    (fs : List String) (readJson : String → Except String (List (String × String))) :
    Except String HelperStatus :=
  let folder_path := tasks_base_path ++ "/" ++ task_folder
  let pending_file := folder_path ++ "/" ++ task_id ++ ".json"
  if fs.contains pending_file then .ok { status := "pending", file := some pending_file }
  else
    let processed_folder := folder_path ++ "/processed"
    let processed_file := processed_folder ++ "/" ++ task_id ++ ".json"
    let result_file := processed_folder ++ "/" ++ task_id ++ "_result.json"
    if fs.contains processed_file then
      if fs.contains result_file then
        match readJson result_file with
        | .ok d => .ok { status := "processed", file := some processed_file, result := some d }
        | .error e => .error e
      else .ok { status := "processed", file := some processed_file }
    else
      let failed_folder := folder_path ++ "/failed"
      let failed_file := failed_folder ++ "/" ++ task_id ++ ".json"
      if fs.contains failed_file then .ok { status := "failed", file := some failed_file }
      else .ok { status := "not_found" }

/-! ## The client dispatcher (`RobustMCPClient.send_request`)

The two background reader threads feed a queue of raw lines; a call's
visible world is the sequence of lines it can dequeue before its timeout
elapses, modelled as a list (empty-on-timeout beyond its end).  A line is
blank, unparsable JSON, or a parsed response. -/

/-- A parsed JSON-RPC response as the client sees it; `error` carries the
rendered error payload. -/
structure RpcResponse where
  id : Option Int := none
  result : Option String := none
  error : Option String := none
deriving Repr, DecidableEq

/-- One dequeued line. -/
inductive ClientLine where
  | blank
  | invalid
  | resp (r : RpcResponse)
deriving Repr, DecidableEq

/-- Client-session state touched by `send_request`: the id counter
(`self.request_id`, starting at 0) and whether the child process is
alive (`send_request` never changes it). -/
structure ClientState where
  request_id : Nat
  processRunning : Bool
deriving Repr, DecidableEq

/-- Outcome of one `send_request` call. -/
inductive CallResult where
  | ok (r : RpcResponse)
  | serverError (e : String)
  | timeout (method : String) (seconds : Nat)
  | notRunning
deriving Repr, DecidableEq

/-- Response-wait loop of `send_request` (lines 126-145): dequeue lines,
skip blanks and unparsable ones, and on a parsed response act only if its
id equals this call's id — raising its error if present, returning it
otherwise; any other response is discarded and the scan continues; an
exhausted queue is the timeout. -/
def scanQueue (method : String) (timeoutSec : Nat) (expected : Nat) :
    List ClientLine → CallResult
  | [] => .timeout method timeoutSec
  | .blank :: rest => scanQueue method timeoutSec expected rest
  | .invalid :: rest => scanQueue method timeoutSec expected rest
  | .resp r :: rest =>
    if r.id = some (Int.ofNat expected) then
      match r.error with
      | some e => .serverError ("Server error: " ++ e)
      | none => .ok r
    else scanQueue method timeoutSec expected rest

/-- `RobustMCPClient.send_request` (lines 103-145): fail if the child is
not running, otherwise increment `request_id`, send the frame carrying
that id, and wait for the correlated response. -/
def send_request (st : ClientState) (method : String) (timeoutSec : Nat)
    (queue : List ClientLine) : ClientState × CallResult :=
  if !st.processRunning then (st, .notRunning)
  else
    let st2 := { st with request_id := st.request_id + 1 }
    (st2, scanQueue method timeoutSec st2.request_id queue)

/-- Fresh client state (`self.request_id = 0`, child running). -/
def initialClient : ClientState := { request_id := 0, processRunning := true }

/-- Ids carried by a sequence of calls (one queue per call). -/
def sessionIds (st : ClientState) : List (List ClientLine) → List Nat
  | [] => []
  | q :: qs =>
    let r := send_request st "tools/call" 30 q
    r.1.request_id :: sessionIds r.1 qs

/-- Does this line carry the response the call with id `expected` is
waiting for? -/
def lineMatches (expected : Nat) : ClientLine → Bool
  | .resp r => decide (r.id = some (Int.ofNat expected))
  | _ => false

/-- A call in the combined world of client state and task-store
filesystem: `send_request` performs no filesystem operation, which the
embedding records by passing the store through untouched. -/
def clientWorldCall (st : ClientState) (fs : List String) (method : String)
    (timeoutSec : Nat) (queue : List ClientLine) : (ClientState × List String) × CallResult :=
  let r := send_request st method timeoutSec queue
  ((r.1, fs), r.2)

/-! ## The server's `tools/call` dispatcher

`handle_mcp_request`'s `tools/call` branch (lines 639-859).  The whole
tool dispatch runs inside one `try`; modelled handlers return
`Except String (text, filesystem)` and the wrapper turns an exception
into the `-32603` internal-error response.  The unknown-tool branch is
not an exception: it directly builds the `-32601` response.  Display
strings interpolate Python `str(...)` of JSON values, approximated by
`pyShow` (exact on strings and `None`, the cases the claims exercise). -/

/-- Rough Python `str()` of a JSON value (exact for strings, `None`,
booleans and integers; composite values are abbreviated). -/
def pyShow : JValue → String
  | .null => "None"
  | .bool b => if b then "True" else "False"
  | .num n => toString n
  | .str s => s
  | .arr _ => "[...]"
  | .obj _ => "\x7b...\x7d"

/-- Python `str()` of a possibly-absent value. -/
def pyShowOpt : Option JValue → String
  | none => "None"
  | some v => pyShow v

/-- Tool-name comparison `tool_name == "..."` of the dispatch chain. -/
def toolIs (tool_name : Option JValue) (s : String) : Bool :=
  match tool_name with
  | some v => v.isStr s
  | none => false

/-- Modality argument as the table chooser sees it: only a JSON string
can equal `"MR"`/`"CT"`/`"PT"`, every other value falls to the MR
default exactly as in the source. -/
def jToOptStr : Option JValue → Option String
  | some (.str s) => some s
  | _ => none

/-- External collaborators of the server handlers. -/
structure ServerEnv where
  now_ms : Nat
  writeError : Option String := none
  vista3d_tasks_path : String
  vista3d_processed_path : String
  readJson : String → Except String (List (String × String))
  queryEnv : QueryEnv
  imageSearch : Option String → List String

/-- Handler for `submit_vista3d_point_task` (lines 647-692): validate the
three required arguments in order (Python truthiness), build the task,
submit it, and render the success text. -/
def pointTaskHandler (env : ServerEnv) (fs : List String)
    (arguments : List (String × JValue)) : Except String (String × List String) :=
  let point_coordinates := arguments.lookup "point_coordinates"
  let input_file := arguments.lookup "input_file"
  let output_directory := arguments.lookup "output_directory"
  if !(pyTruthyOpt point_coordinates) then .error "point_coordinates is required"
  else if !(pyTruthyOpt input_file) then .error "input_file is required"
  else if !(pyTruthyOpt output_directory) then .error "output_directory is required"
  else
    let point_type := (arguments.lookup "point_type").getD (.str "positive")
    let additional_points := (arguments.lookup "additional_points").getD (.arr [])
    let patient_id := arguments.lookup "patient_id"
    let series_uid := arguments.lookup "series_uid"
    match create_vista3d_task (point_coordinates.getD .null) (input_file.getD .null)
      (output_directory.getD .null) point_type 1 additional_points patient_id "MR" series_uid
      none env.now_ms with
    | .error e => .error e
    | .ok task =>
      match submit_task env.vista3d_tasks_path env.writeError (.point task) fs with
      | .error e => .error e
      | .ok r =>
        .ok ("Successfully submitted Vista3D task!\n\nTask ID: " ++ task.task_id
          ++ "\nTask file: " ++ r.1
          ++ "\nPoint coordinates: " ++ pyShowOpt point_coordinates
          ++ "\nPoint type: " ++ pyShow point_type
          ++ "\n\nTask is now queued for processing by ARTDaemon.", r.2)

/-- Handler for `check_vista3d_task_status` (lines 694-721).  The
`failed` branch of the status text always renders `N/A`: the probe's
record has no `failed_file` entry. -/
def statusToolHandler (env : ServerEnv) (fs : List String)
    (arguments : List (String × JValue)) : Except String (String × List String) :=
  let task_id := pyShowOpt (arguments.lookup "task_id")
  let status := check_task_status env.vista3d_tasks_path env.vista3d_processed_path task_id fs
    env.readJson
  let base := "Task ID: " ++ task_id ++ "\nStatus: " ++ status.status ++ "\n"
  let text :=
    if status.status == "processed" then
      base
        ++ (match status.output_mask with
            | some m => "Output mask: " ++ m ++ "\n"
            | none => "")
        ++ (match status.result with
            | some d => "Result details: "
                ++ String.intercalate ", " (d.map (fun kv => kv.1 ++ "=" ++ kv.2)) ++ "\n"
            | none => "")
    else if status.status == "pending" then base ++ "Task is still being processed...\n"
    else if status.status == "failed" then base ++ "Task failed. Check file: N/A\n"
    else base
  .ok (text, fs)

/-- Handler for `submit_full_body_task` (lines 723-762). -/
def fullBodyHandler (env : ServerEnv) (fs : List String)
    (arguments : List (String × JValue)) : Except String (String × List String) :=
  let input_file := arguments.lookup "input_file"
  let output_directory := arguments.lookup "output_directory"
  if !(pyTruthyOpt input_file) then .error "input_file is required"
  else if !(pyTruthyOpt output_directory) then .error "output_directory is required"
  else
    let description := arguments.lookup "description"
    let patient_id := arguments.lookup "patient_id"
    let series_uid := arguments.lookup "series_uid"
    let task := create_full_body_task (input_file.getD .null) (output_directory.getD .null)
      description patient_id series_uid none env.now_ms
    match submit_task env.vista3d_tasks_path env.writeError (.fullBody task) fs with
    | .error e => .error e
    | .ok r =>
      .ok ("Successfully submitted full body segmentation task!\n\nTask ID: " ++ task.task_id
        ++ "\nTask file: " ++ r.1
        ++ "\nInput file: " ++ pyShowOpt input_file
        ++ "\nOutput directory: " ++ pyShowOpt output_directory
        ++ "\n\nTask is now queued for processing by ARTDaemon.", r.2)

/-- Python `result.get(k1) or result.get(k2, 'N/A')` over a row's
nullable fields. -/
def pyOrGet (fields : List (String × Option String)) (k1 k2 : String) : String :=
  let first : Option String :=
    match fields.lookup k1 with
    | some (some s) => if s == "" then none else some s
    | _ => none
  match first with
  | some s => s
  | none =>
    match fields.lookup k2 with
    | some (some s) => s
    | some none => "None"
    | none => "N/A"

/-- Python `result.get(k, 'N/A')`. -/
def pyGet1 (fields : List (String × Option String)) (k : String) : String :=
  match fields.lookup k with
  | some (some s) => s
  | some none => "None"
  | none => "N/A"

/-- Python `result.get(k)` under a truthiness test. -/
def pyGetTruthy (fields : List (String × Option String)) (k : String) : Option String :=
  match fields.lookup k with
  | some (some s) => if s == "" then none else some s
  | _ => none

/-- Per-row display block of lines 785-799. -/
def formatRow (i : Nat) (r : ResultRow) : String :=
  "\n" ++ toString i ++ ". Patient: " ++ pyOrGet r.fields "patientid" "patient_id"
    ++ " (" ++ pyOrGet r.fields "patientname" "patient_name" ++ ")\n"
    ++ "   Modality: " ++ pyGet1 r.fields "modality" ++ "\n"
    ++ "   Study Date: " ++ pyOrGet r.fields "studydate" "study_date" ++ "\n"
    ++ "   Input File: " ++ r.input_file.getD "N/A" ++ "\n"
    ++ "   Output Directory: " ++ r.output_directory.getD "N/A" ++ "\n"
    ++ (match pyGetTruthy r.fields "sequence_name" with
        | some s => "   Sequence: " ++ s ++ "\n"
        | none => "")
    ++ (match pyGetTruthy r.fields "contrast_agent" with
        | some s => "   Contrast: " ++ s ++ "\n"
        | none => "")

/-- Handler for `query_patient_images` (lines 764-817): the query itself
never raises (its failures come back as data), and the handler renders
either the found rows, the error text, or the no-match message. -/
def queryImagesHandler (env : ServerEnv) (fs : List String)
    (arguments : List (String × JValue)) : Except String (String × List String) :=
  let modality := jToOptStr (arguments.lookup "modality")
  let filters : List (String × String) :=
    match arguments.lookup "filters" with
    | some (.obj f) => f.map (fun kv => (kv.1, pyShow kv.2))
    | _ => []
  let results := query_patient_images env.queryEnv modality filters
  let text :=
    match results with
    | .failure e => "Database query error: " ++ e
    | .success [] => "No patient images found matching the criteria."
    | .success rows =>
      "Found " ++ toString rows.length ++ " patient image(s):\n"
        ++ String.join ((List.range rows.length).zipWith (fun i r => formatRow (i + 1) r) rows)
  .ok (text, fs)

/-- Handler for `list_available_images` (lines 819-838); the directory
walk is the environment's `imageSearch`. -/
def listImagesHandler (env : ServerEnv) (fs : List String)
    (arguments : List (String × JValue)) : Except String (String × List String) :=
  let search_directory := arguments.lookup "search_directory"
  let images := env.imageSearch (jToOptStr search_directory)
  let body := String.intercalate "\n" (images.map (fun img => "- " ++ img))
  let text :=
    if pyTruthyOpt search_directory then
      "Available input images in " ++ pyShowOpt search_directory ++ ":\n" ++ body
    else "Available input images:\n" ++ body
  .ok (text, fs)

/-- A JSON-RPC request as `handle_mcp_request` reads it. -/
structure MCPRequest where
  id : Option Int := none
  method : String := "tools/call"
  params : List (String × JValue) := []

/-- One of the two mutually exclusive response payloads: a `result`
object or an `error` object with code and message. -/
inductive RpcOutcome where
  | result (text : String)
  | rpcError (code : Int) (message : String)
deriving Repr, DecidableEq

/-- A response frame written by the server. -/
structure ServerResponse where
  id : Option Int
  outcome : RpcOutcome
deriving Repr, DecidableEq

/-- The `try`/`except` of lines 646-859: a handler exception becomes the
`-32603` internal-error response (leaving the store as it was before the
handler ran — the only mutation, the task write, is a handler's last
effect). -/
def wrapToolOutcome (id : Option Int) (fs : List String) :
    Except String (String × List String) → ServerResponse × List String
  | .ok r => ({ id := id, outcome := .result r.1 }, r.2)
  | .error e => ({ id := id, outcome := .rpcError (-32603) ("Internal error: " ++ e) }, fs)

/-- The `tools/call` dispatch of `handle_mcp_request` (lines 639-859). -/
def handle_tools_call (env : ServerEnv) (fs : List String) (request : MCPRequest) :
    ServerResponse × List String :=
  let tool_name := request.params.lookup "name"
  let arguments : List (String × JValue) :=
    match request.params.lookup "arguments" with
    | some (.obj f) => f
    | _ => []
  if toolIs tool_name "submit_vista3d_point_task" then
    wrapToolOutcome request.id fs (pointTaskHandler env fs arguments)
  else if toolIs tool_name "check_vista3d_task_status" then
    wrapToolOutcome request.id fs (statusToolHandler env fs arguments)
  else if toolIs tool_name "submit_full_body_task" then
    wrapToolOutcome request.id fs (fullBodyHandler env fs arguments)
  else if toolIs tool_name "query_patient_images" then
    wrapToolOutcome request.id fs (queryImagesHandler env fs arguments)
  else if toolIs tool_name "list_available_images" then
    wrapToolOutcome request.id fs (listImagesHandler env fs arguments)
  else
    ({ id := request.id
       outcome := .rpcError (-32601) ("Unknown tool: " ++ pyShowOpt tool_name) }, fs)

/-- The five registered tool names (lines 497-635). -/
def toolNames : List String :=
  ["submit_vista3d_point_task", "check_vista3d_task_status", "submit_full_body_task",
   "query_patient_images", "list_available_images"]

/-! ## Theorems for the claims -/

/-- C4: the Sequence Classifier maps the six literal inputs to exactly
the stated tag sets ("AX T1 POST GAD" to both T1 and T1C, "T1 MPRAGE" to
T1 and T1NC, "SAG FLAIR" to FLAIR alone, "DWI_EPI TRACE" to DWI alone,
"CISS BRAIN" to T2 alone, and the empty string to the empty set); the
lists are the classifier's append-ordered representation of those
sets. -/
theorem C4_classifier_literal_scenarios :
    _classify_mr_sequence "AX T1 POST GAD" = ["T1", "T1C"] ∧
    _classify_mr_sequence "T1 MPRAGE" = ["T1", "T1NC"] ∧
    _classify_mr_sequence "SAG FLAIR" = ["FLAIR"] ∧
    _classify_mr_sequence "DWI_EPI TRACE" = ["DWI"] ∧
    _classify_mr_sequence "CISS BRAIN" = ["T2"] ∧
    _classify_mr_sequence "" = [] :=
  ⟨rfl, rfl, rfl, rfl, rfl, rfl⟩

/-- C5: for every series description, the classifier's output never
contains both T1C and T1NC, and contains T1NC only if it also contains
T1. -/
theorem C5_t1nc_mutually_exclusive (series_description : String) :
    ¬("T1C" ∈ _classify_mr_sequence series_description ∧
      "T1NC" ∈ _classify_mr_sequence series_description) ∧
    ("T1NC" ∈ _classify_mr_sequence series_description →
      "T1" ∈ _classify_mr_sequence series_description) := by
  by_cases h0 : series_description = ""
  · simp [_classify_mr_sequence, h0]
  · simp only [_classify_mr_sequence, if_neg h0]
    cases h1 : research t1_pattern (pyStrip series_description) <;>
      cases h2 : research t1c_pattern (pyStrip series_description) <;>
        cases h3 : research t1nc_pattern (pyStrip series_description) <;>
          cases h4 : research t2_pattern (pyStrip series_description) <;>
            cases h5 : research flair_pattern (pyStrip series_description) <;>
              cases h6 : research dwi_pattern (pyStrip series_description) <;>
                decide

/-- Witness for C5 at the concrete description "T1 MPRAGE", whose tag
list contains T1NC. -/
theorem C5_t1nc_mutually_exclusive_witness :
    "T1" ∈ _classify_mr_sequence "T1 MPRAGE" :=
  (C5_t1nc_mutually_exclusive "T1 MPRAGE").2 (by decide)

/-- C3: the `sequence_type` narrowing keeps a row exactly when the
uppercased requested value itself is among the computed tags — the two
alias branches of the source can never rescue a row, because the final
`elif` repeats the enclosing test; in particular a query for the
`T1_CONTRAST` alias drops a row whose tag set does contain `T1C`,
against the claim's alias normalization. -/
theorem C3_sequence_type_alias_dead :
    (∀ (requested_type : String) (classified_sequences : List String),
        sequenceKeep requested_type classified_sequences =
          classified_sequences.contains requested_type) ∧
    "T1C" ∈ _classify_mr_sequence "AX T1 POST GAD" ∧
    sequenceKeep "T1_CONTRAST" (_classify_mr_sequence "AX T1 POST GAD") = false ∧
    processRow "MR" (some "T1_CONTRAST")
      [("series_description", some "AX T1 POST GAD")] = none := by
  refine ⟨fun requested_type classified_sequences => ?_, by decide, by rfl, by rfl⟩
  unfold sequenceKeep
  cases h : classified_sequences.contains requested_type <;> simp [h]

/-- Counterexample to C6's resolution order: with schema columns
`["patient_id", "PatientID"]` and filter key `"PatientID"`, the engine
resolves to `patient_id` (the first column, via the underscore-blind
criterion) although an exact match exists later — the spec-order
resolver would pick `PatientID`. -/
theorem C6_resolution_order_counterexample :
    matchColumn "PatientID" ["patient_id", "PatientID"] = some "patient_id" ∧
    resolveColumnSpec "PatientID" ["patient_id", "PatientID"] = some "PatientID" ∧
    matchColumn "PatientID" ["patient_id", "PatientID"] ≠
      resolveColumnSpec "PatientID" ["patient_id", "PatientID"] :=
  ⟨rfl, rfl, by decide⟩

/-- C6 (amended): a filter key other than `sequence_type` resolves to the
first schema column, in schema order, that it matches exactly,
case-insensitively, or ignoring underscores and case (column order, not
criterion order, breaks ties); the generated SQL fragments are a function
of the resolved columns alone, so no filter value reaches the SQL text;
every value lands in the bound-parameter list (wrapped in `%...%` for the
free-text columns); and an unresolved key contributes nothing at all. -/
theorem C6_filter_resolution_and_binding :
    (∀ (filter_key : String) (cols : List String),
        matchColumn filter_key cols =
          cols.find? (fun c =>
            filter_key == c || pyLower filter_key == pyLower c ||
              delUnderscores (pyLower filter_key) == delUnderscores (pyLower c))) ∧
    (∀ (cols : List String) (filters : List (String × String)),
        (applyFilters cols filters).1 =
          filters.filterMap (fun kv =>
            if kv.1 = "sequence_type" then none
            else
              (matchColumn kv.1 cols).map (fun m =>
                if text_search_fields.contains m then "AND " ++ m ++ " LIKE ?"
                else "AND " ++ m ++ " = ?"))) ∧
    (∀ (cols : List String) (filters : List (String × String)),
        (applyFilters cols filters).2.1 =
          filters.filterMap (fun kv =>
            if kv.1 = "sequence_type" then none
            else
              (matchColumn kv.1 cols).map (fun m =>
                if text_search_fields.contains m then "%" ++ kv.2 ++ "%" else kv.2))) ∧
    (∀ (table : String) (cols : List String) (filters : List (String × String))
       (f : String → String),
        final_query table cols (applyFilters cols (filters.map (fun kv => (kv.1, f kv.2)))).1 =
          final_query table cols (applyFilters cols filters).1) ∧
    (∀ (cols : List String) (k v : String) (rest : List (String × String)),
        k ≠ "sequence_type" → matchColumn k cols = none →
          applyFilters cols ((k, v) :: rest) = applyFilters cols rest) := by
  have hfind : ∀ (filter_key : String) (cols : List String),
      matchColumn filter_key cols =
        cols.find? (fun c =>
          filter_key == c || pyLower filter_key == pyLower c ||
            delUnderscores (pyLower filter_key) == delUnderscores (pyLower c)) := by
    intro filter_key cols
    induction cols with
    | nil => rfl
    | cons c rest ih =>
      by_cases h1 : filter_key = c
      · simp [matchColumn, List.find?, h1]
      · by_cases h2 : pyLower filter_key = pyLower c
        · simp [matchColumn, List.find?, h1, h2]
        · by_cases h3 : delUnderscores (pyLower filter_key) = delUnderscores (pyLower c)
          · simp [matchColumn, List.find?, h1, h2, h3]
          · have b1 : (filter_key == c) = false := by simp [h1]
            have b2 : (pyLower filter_key == pyLower c) = false := by simp [h2]
            have b3 : (delUnderscores (pyLower filter_key) ==
                delUnderscores (pyLower c)) = false := by simp [h3]
            simp [matchColumn, List.find?, h1, h2, h3, b1, b2, b3, ih]
  have hparts : ∀ (cols : List String) (filters : List (String × String)),
      (applyFilters cols filters).1 =
        filters.filterMap (fun kv =>
          if kv.1 = "sequence_type" then none
          else
            (matchColumn kv.1 cols).map (fun m =>
              if text_search_fields.contains m then "AND " ++ m ++ " LIKE ?"
              else "AND " ++ m ++ " = ?")) := by
    intro cols filters
    induction filters with
    | nil => rfl
    | cons kv rest ih =>
      by_cases hseq : kv.1 = "sequence_type"
      · simp [applyFilters, List.filterMap, hseq, ih]
      · cases hm : matchColumn kv.1 cols with
        | none => simp [applyFilters, List.filterMap, hseq, hm, ih]
        | some m =>
          by_cases ht : m ∈ text_search_fields <;>
            simp [applyFilters, List.filterMap, hseq, hm, ht, ih]
  have hparams : ∀ (cols : List String) (filters : List (String × String)),
      (applyFilters cols filters).2.1 =
        filters.filterMap (fun kv =>
          if kv.1 = "sequence_type" then none
          else
            (matchColumn kv.1 cols).map (fun m =>
              if text_search_fields.contains m then "%" ++ kv.2 ++ "%" else kv.2)) := by
    intro cols filters
    induction filters with
    | nil => rfl
    | cons kv rest ih =>
      by_cases hseq : kv.1 = "sequence_type"
      · simp [applyFilters, List.filterMap, hseq, ih]
      · cases hm : matchColumn kv.1 cols with
        | none => simp [applyFilters, List.filterMap, hseq, hm, ih]
        | some m =>
          by_cases ht : m ∈ text_search_fields <;>
            simp [applyFilters, List.filterMap, hseq, hm, ht, ih]
  refine ⟨hfind, hparts, hparams, ?_, ?_⟩
  · intro table cols filters f
    have : (applyFilters cols (filters.map (fun kv => (kv.1, f kv.2)))).1 =
        (applyFilters cols filters).1 := by
      rw [hparts, hparts, List.filterMap_map]
      rfl
    rw [this]
  · intro cols k v rest hk hm
    simp [applyFilters, hk, hm]

/-- Witness for C6: the schema-less key `not_a_real_column` contributes
nothing — the SQL fragments, the parameters, and the captured sequence
type are those of the remaining filters alone. -/
theorem C6_filter_resolution_and_binding_witness :
    applyFilters ["PatientID"] [("not_a_real_column", "x"), ("patient_id", "p1")] =
      applyFilters ["PatientID"] [("patient_id", "p1")] :=
  C6_filter_resolution_and_binding.2.2.2.2 ["PatientID"] "not_a_real_column" "x"
    [("patient_id", "p1")] (by decide) (by decide)

/-- C1: the helper probe (`task_helpers.check_task_status`) implements
the claim's four states in the claimed precedence order, with the failed
state referencing the failed file's path; but the server probe
(`Vista3DMCPServer.check_task_status`) has no failed branch at all — a
task file sitting only in a failed location yields `not_found`, even
though the server's own `tools/call` formatter expects a `failed`
status. -/
theorem C1_status_probe_states :
    (∀ (task_id task_folder tasks_base_path : String) (fs : List String)
       (readJson : String → Except String (List (String × String))),
        (tasks_base_path ++ "/" ++ task_folder ++ "/" ++ task_id ++ ".json" ∈ fs →
          th_check_task_status task_id task_folder tasks_base_path fs readJson =
            .ok { status := "pending"
                  file := some (tasks_base_path ++ "/" ++ task_folder ++ "/" ++ task_id ++ ".json") }) ∧
        (tasks_base_path ++ "/" ++ task_folder ++ "/" ++ task_id ++ ".json" ∉ fs →
          tasks_base_path ++ "/" ++ task_folder ++ "/processed" ++ "/" ++ task_id ++ ".json" ∈ fs →
          tasks_base_path ++ "/" ++ task_folder ++ "/processed" ++ "/" ++ task_id ++ "_result.json" ∉ fs →
          th_check_task_status task_id task_folder tasks_base_path fs readJson =
            .ok { status := "processed"
                  file := some (tasks_base_path ++ "/" ++ task_folder ++ "/processed" ++ "/" ++ task_id ++ ".json") }) ∧
        (tasks_base_path ++ "/" ++ task_folder ++ "/" ++ task_id ++ ".json" ∉ fs →
          tasks_base_path ++ "/" ++ task_folder ++ "/processed" ++ "/" ++ task_id ++ ".json" ∉ fs →
          tasks_base_path ++ "/" ++ task_folder ++ "/failed" ++ "/" ++ task_id ++ ".json" ∈ fs →
          th_check_task_status task_id task_folder tasks_base_path fs readJson =
            .ok { status := "failed"
                  file := some (tasks_base_path ++ "/" ++ task_folder ++ "/failed" ++ "/" ++ task_id ++ ".json") }) ∧
        (tasks_base_path ++ "/" ++ task_folder ++ "/" ++ task_id ++ ".json" ∉ fs →
          tasks_base_path ++ "/" ++ task_folder ++ "/processed" ++ "/" ++ task_id ++ ".json" ∉ fs →
          tasks_base_path ++ "/" ++ task_folder ++ "/failed" ++ "/" ++ task_id ++ ".json" ∉ fs →
          th_check_task_status task_id task_folder tasks_base_path fs readJson =
            .ok { status := "not_found" })) ∧
    check_task_status "/base/tasks-live/Vista3D" "/base/tasks-history/Vista3d" "vista3d_point_1"
      ["/base/tasks-live/Vista3D/failed/vista3d_point_1.json"] (fun _ => .error "unreadable") =
      { status := "not_found", task_id := some "vista3d_point_1"
        message := some "Task not found in any location" } := by
  refine ⟨fun task_id task_folder tasks_base_path fs readJson => ⟨?_, ?_, ?_, ?_⟩, by rfl⟩
  · intro h1
    simp [th_check_task_status, h1]
  · intro h1 h2 h3
    simp [th_check_task_status, h1, h2, h3]
  · intro h1 h2 h3
    simp [th_check_task_status, h1, h2, h3]
  · intro h1 h2 h3
    simp [th_check_task_status, h1, h2, h3]

/-- Witness for C1 at a concrete store holding only a failed file: the
helper probe reports `failed` with that file's path. -/
theorem C1_status_probe_states_witness :
    th_check_task_status "t7" "Vista3D" "/base/tasks-live"
      ["/base/tasks-live/Vista3D/failed/t7.json"] (fun _ => .error "unreadable") =
      .ok { status := "failed", file := some ("/base/tasks-live" ++ "/" ++ "Vista3D" ++ "/failed" ++ "/" ++ "t7" ++ ".json") } :=
  ((C1_status_probe_states.1 "t7" "Vista3D" "/base/tasks-live"
      ["/base/tasks-live/Vista3D/failed/t7.json"] (fun _ => .error "unreadable")).2.2.1
    (by decide) (by decide) (by decide))

/-- C9 (amended): submitting a task and immediately probing the same id
yields `pending`.  The helper probe's pending status carries exactly the
path its submit returned (`{base}/{folder}/{task_id}.json`); the server's
probe consults exactly the path its submit wrote
(`{tasks}/{task_id}.tsk`), but its pending record carries only the task
id and a fixed message, not the path. -/
theorem C9_submit_then_status_pending :
    (∀ (vista3d_tasks_path vista3d_processed_path : String) (task : TaskDoc)
       (fs : List String) (readJson : String → Except String (List (String × String))),
        submit_task vista3d_tasks_path none task fs =
          .ok (vista3d_tasks_path ++ "/" ++ (task.task_id ++ ".tsk"),
               (vista3d_tasks_path ++ "/" ++ (task.task_id ++ ".tsk")) :: fs) ∧
        check_task_status vista3d_tasks_path vista3d_processed_path task.task_id
            ((vista3d_tasks_path ++ "/" ++ (task.task_id ++ ".tsk")) :: fs) readJson =
          { status := "pending", task_id := some task.task_id
            message := some "Task is queued for processing" }) ∧
    (∀ (task_id task_folder tasks_base_path : String) (fs : List String)
       (readJson : String → Except String (List (String × String))),
        th_check_task_status task_id task_folder tasks_base_path
            (th_submit_task task_id task_folder tasks_base_path fs).2 readJson =
          .ok { status := "pending"
                file := some (th_submit_task task_id task_folder tasks_base_path fs).1 }) := by
  constructor
  · intro vista3d_tasks_path vista3d_processed_path task fs readJson
    constructor
    · rfl
    · simp [check_task_status, String.append_assoc]
  · intro task_id task_folder tasks_base_path fs readJson
    simp [th_check_task_status, th_submit_task, String.append_assoc]

/-- A successful `send_request` scan only ever returns a response whose
id is the expected one. -/
theorem scanQueue_ok_id (method : String) (timeoutSec expected : Nat) (r : RpcResponse) :
    ∀ (queue : List ClientLine),
      scanQueue method timeoutSec expected queue = .ok r →
        r.id = some (Int.ofNat expected)
  | [] => by intro hok; simp only [scanQueue] at hok; cases hok
  | .blank :: rest => by
    intro hok
    simp only [scanQueue] at hok
    exact scanQueue_ok_id method timeoutSec expected r rest hok
  | .invalid :: rest => by
    intro hok
    simp only [scanQueue] at hok
    exact scanQueue_ok_id method timeoutSec expected r rest hok
  | .resp r2 :: rest => by
    intro hok
    simp only [scanQueue] at hok
    by_cases h : r2.id = some (Int.ofNat expected)
    · rw [if_pos h] at hok
      cases he : r2.error with
      | some e => rw [he] at hok; cases hok
      | none => rw [he] at hok; cases hok; exact h
    · rw [if_neg h] at hok
      exact scanQueue_ok_id method timeoutSec expected r rest hok

/-- A scan over lines none of which carry the expected id times out. -/
theorem scanQueue_timeout (method : String) (timeoutSec expected : Nat) :
    ∀ (queue : List ClientLine),
      (∀ l ∈ queue, lineMatches expected l = false) →
        scanQueue method timeoutSec expected queue = .timeout method timeoutSec
  | [], _ => rfl
  | .blank :: rest, h => by
    simp only [scanQueue]
    exact scanQueue_timeout method timeoutSec expected rest (fun l hl => h l (by simp [hl]))
  | .invalid :: rest, h => by
    simp only [scanQueue]
    exact scanQueue_timeout method timeoutSec expected rest (fun l hl => h l (by simp [hl]))
  | .resp r2 :: rest, h => by
    have hr : ¬(r2.id = some (Int.ofNat expected)) :=
      of_decide_eq_false (h (.resp r2) (by simp))
    simp only [scanQueue]
    rw [if_neg hr]
    exact scanQueue_timeout method timeoutSec expected rest (fun l hl => h l (by simp [hl]))

/-- Running client sessions use ids `request_id + 1`, `request_id + 2`,
… in order. -/
theorem sessionIds_range (qs : List (List ClientLine)) :
    ∀ (st : ClientState), st.processRunning = true →
      sessionIds st qs = List.range' (st.request_id + 1) qs.length := by
  induction qs with
  | nil => intro st h; rfl
  | cons q rest ih =>
    intro st h
    have hrec := ih { request_id := st.request_id + 1, processRunning := true } rfl
    simp only [sessionIds, send_request, h, Bool.not_true, Bool.false_eq_true, if_false,
      List.length_cons, List.range'_succ]
    rw [hrec]

/-- C2: each call increments `next_id` before sending (so a fresh
session's successive calls carry ids 1, 2, 3, …), a call returns only a
response carrying its own id, and a dequeued response with any other id
is discarded — removing it from the stream changes nothing. -/
theorem C2_request_id_correlation :
    (∀ (st : ClientState) (method : String) (timeoutSec : Nat) (queue : List ClientLine),
        st.processRunning = true →
          (send_request st method timeoutSec queue).1.request_id = st.request_id + 1) ∧
    (∀ (st : ClientState) (method : String) (timeoutSec : Nat) (queue : List ClientLine)
       (r : RpcResponse),
        st.processRunning = true →
          (send_request st method timeoutSec queue).2 = .ok r →
            r.id = some (Int.ofNat (st.request_id + 1))) ∧
    (∀ (st : ClientState) (method : String) (timeoutSec : Nat) (queue : List ClientLine)
       (r : RpcResponse),
        st.processRunning = true → r.id ≠ some (Int.ofNat (st.request_id + 1)) →
          send_request st method timeoutSec (.resp r :: queue) =
            send_request st method timeoutSec queue) ∧
    (∀ (qs : List (List ClientLine)),
        sessionIds initialClient qs = List.range' 1 qs.length) := by
  refine ⟨?_, ?_, ?_, ?_⟩
  · intro st method timeoutSec queue h
    simp [send_request, h]
  · intro st method timeoutSec queue r h hok
    refine scanQueue_ok_id method timeoutSec (st.request_id + 1) r queue ?_
    simpa [send_request, h] using hok
  · intro st method timeoutSec queue r h hr
    have hs : scanQueue method timeoutSec (st.request_id + 1) (.resp r :: queue) =
        scanQueue method timeoutSec (st.request_id + 1) queue := by
      simp only [scanQueue]
      rw [if_neg hr]
    simp only [send_request, hs]
  · intro qs
    exact sessionIds_range qs initialClient rfl

/-- Witness for C2: from a fresh session, a call whose stream holds the
response with id 1 increments the counter to 1 and returns that very
response's id. -/
theorem C2_request_id_correlation_witness :
    (send_request initialClient "tools/list" 30
        [.resp { id := some 1, result := some "ok" }]).1.request_id = 1 ∧
    ({ id := some 1, result := some "ok" } : RpcResponse).id = some (Int.ofNat (0 + 1)) :=
  ⟨C2_request_id_correlation.1 initialClient "tools/list" 30
      [.resp { id := some 1, result := some "ok" }] rfl,
    C2_request_id_correlation.2.1 initialClient "tools/list" 30
      [.resp { id := some 1, result := some "ok" }] { id := some 1, result := some "ok" }
      rfl (by rfl)⟩

/-- C8: when no line of the call's window carries its id, the call ends
in the timeout failure naming the method and the configured timeout, the
child process's liveness flag is untouched (the call does not kill or
restart it), and the task store is exactly as before the call. -/
theorem C8_timeout_leaves_world_alone (st : ClientState) (fs : List String)
    (method : String) (timeoutSec : Nat) (queue : List ClientLine) :
    st.processRunning = true →
    (∀ l ∈ queue, lineMatches (st.request_id + 1) l = false) →
      clientWorldCall st fs method timeoutSec queue =
        (({ request_id := st.request_id + 1, processRunning := st.processRunning }, fs),
          .timeout method timeoutSec) := by
  intro h hq
  simp only [clientWorldCall, send_request, h, Bool.not_true, Bool.false_eq_true, if_false,
    scanQueue_timeout method timeoutSec (st.request_id + 1) queue hq]

/-- Witness for C8: a window holding an unparsable line and a response
for id 99 times out the call with id 6 and leaves the world alone. -/
theorem C8_timeout_leaves_world_alone_witness :
    clientWorldCall { request_id := 5, processRunning := true } ["/q/a.tsk"] "tools/call" 30
        [.invalid, .resp { id := some 99 }] =
      (({ request_id := 5 + 1, processRunning := true }, ["/q/a.tsk"]), .timeout "tools/call" 30) :=
  C8_timeout_leaves_world_alone { request_id := 5, processRunning := true } ["/q/a.tsk"]
    "tools/call" 30 [.invalid, .resp { id := some 99 }] rfl (by decide)

/-- The `try`/`except` wrapper keeps the request's id on both paths. -/
theorem wrapToolOutcome_fst_id (i : Option Int) (fs : List String)
    (r : Except String (String × List String)) : (wrapToolOutcome i fs r).1.id = i := by
  cases r <;> rfl

/-- The `try`/`except` wrapper only ever produces the `-32603` error
code. -/
theorem wrapToolOutcome_error_code (i : Option Int) (fs : List String)
    (r : Except String (String × List String)) (c : Int) (m : String) :
    (wrapToolOutcome i fs r).1.outcome = .rpcError c m → c = -32603 := by
  cases r with
  | ok v => simp [wrapToolOutcome]
  | error e =>
    simp only [wrapToolOutcome, RpcOutcome.rpcError.injEq]
    exact fun h => h.1.symm

/-- C7: every `tools/call` dispatch produces a well-formed response
carrying the request's id, whose only error codes are `-32601` (unknown
tool) and `-32603` (wrapped handler exception); an unregistered tool
name yields the `-32601` "Unknown tool" error; a missing (or falsy)
required argument of the submit tools yields the `-32603` internal
error whose message names the field; and a task-write failure yields the
`-32603` internal error wrapping the submit exception's text. -/
theorem C7_tools_call_error_handling :
    (∀ (env : ServerEnv) (fs : List String) (request : MCPRequest),
        (handle_tools_call env fs request).1.id = request.id) ∧
    (∀ (env : ServerEnv) (fs : List String) (request : MCPRequest) (c : Int) (m : String),
        (handle_tools_call env fs request).1.outcome = .rpcError c m →
          c = -32601 ∨ c = -32603) ∧
    (∀ (env : ServerEnv) (fs : List String) (request : MCPRequest) (s : String),
        request.params.lookup "name" = some (.str s) → s ∉ toolNames →
          (handle_tools_call env fs request).1 =
            { id := request.id, outcome := .rpcError (-32601) ("Unknown tool: " ++ s) }) ∧
    (∀ (env : ServerEnv) (fs : List String) (request : MCPRequest)
       (args : List (String × JValue)),
        request.params.lookup "name" = some (.str "submit_vista3d_point_task") →
        request.params.lookup "arguments" = some (.obj args) →
        pyTruthyOpt (args.lookup "point_coordinates") = false →
          (handle_tools_call env fs request).1.outcome =
            .rpcError (-32603) "Internal error: point_coordinates is required") ∧
    (∀ (env : ServerEnv) (fs : List String) (request : MCPRequest)
       (args : List (String × JValue)),
        request.params.lookup "name" = some (.str "submit_vista3d_point_task") →
        request.params.lookup "arguments" = some (.obj args) →
        pyTruthyOpt (args.lookup "point_coordinates") = true →
        pyTruthyOpt (args.lookup "input_file") = false →
          (handle_tools_call env fs request).1.outcome =
            .rpcError (-32603) "Internal error: input_file is required") ∧
    (∀ (env : ServerEnv) (fs : List String) (request : MCPRequest)
       (args : List (String × JValue)),
        request.params.lookup "name" = some (.str "submit_vista3d_point_task") →
        request.params.lookup "arguments" = some (.obj args) →
        pyTruthyOpt (args.lookup "point_coordinates") = true →
        pyTruthyOpt (args.lookup "input_file") = true →
        pyTruthyOpt (args.lookup "output_directory") = false →
          (handle_tools_call env fs request).1.outcome =
            .rpcError (-32603) "Internal error: output_directory is required") ∧
    (∀ (env : ServerEnv) (fs : List String) (request : MCPRequest)
       (args : List (String × JValue)),
        request.params.lookup "name" = some (.str "submit_full_body_task") →
        request.params.lookup "arguments" = some (.obj args) →
        pyTruthyOpt (args.lookup "input_file") = false →
          (handle_tools_call env fs request).1.outcome =
            .rpcError (-32603) "Internal error: input_file is required") ∧
    (∀ (env : ServerEnv) (fs : List String) (request : MCPRequest)
       (args : List (String × JValue)) (e : String),
        request.params.lookup "name" = some (.str "submit_vista3d_point_task") →
        request.params.lookup "arguments" = some (.obj args) →
        pyTruthyOpt (args.lookup "point_coordinates") = true →
        pyTruthyOpt (args.lookup "input_file") = true →
        pyTruthyOpt (args.lookup "output_directory") = true →
        args.lookup "additional_points" = none →
        env.writeError = some e →
          (handle_tools_call env fs request).1.outcome =
            .rpcError (-32603) ("Internal error: Failed to submit task: " ++ e)) := by
  refine ⟨?_, ?_, ?_, ?_, ?_, ?_, ?_, ?_⟩
  · intro env fs request
    simp only [handle_tools_call]
    split_ifs <;> simp [wrapToolOutcome_fst_id]
  · intro env fs request c m
    simp only [handle_tools_call]
    split_ifs <;> intro h
    · exact Or.inr (wrapToolOutcome_error_code _ _ _ _ _ h)
    · exact Or.inr (wrapToolOutcome_error_code _ _ _ _ _ h)
    · exact Or.inr (wrapToolOutcome_error_code _ _ _ _ _ h)
    · exact Or.inr (wrapToolOutcome_error_code _ _ _ _ _ h)
    · exact Or.inr (wrapToolOutcome_error_code _ _ _ _ _ h)
    · simp only [RpcOutcome.rpcError.injEq] at h
      exact Or.inl h.1.symm
  · intro env fs request s hname hnot
    simp only [toolNames, List.mem_cons, List.not_mem_nil, or_false] at hnot
    push_neg at hnot
    obtain ⟨h1, h2, h3, h4, h5⟩ := hnot
    simp [handle_tools_call, hname, toolIs, JValue.isStr, h1, h2, h3, h4, h5, pyShowOpt, pyShow]
  · intro env fs request args hname hargs hfalsy
    simp [handle_tools_call, hname, hargs, toolIs, JValue.isStr, pointTaskHandler, hfalsy,
      wrapToolOutcome]
  · intro env fs request args hname hargs hc hfalsy
    simp [handle_tools_call, hname, hargs, toolIs, JValue.isStr, pointTaskHandler, hc, hfalsy,
      wrapToolOutcome]
  · intro env fs request args hname hargs hc hi hfalsy
    simp [handle_tools_call, hname, hargs, toolIs, JValue.isStr, pointTaskHandler, hc, hi,
      hfalsy, wrapToolOutcome]
  · intro env fs request args hname hargs hfalsy
    simp [handle_tools_call, hname, hargs, toolIs, JValue.isStr, fullBodyHandler, hfalsy,
      wrapToolOutcome]
  · intro env fs request args e hname hargs hc hi ho hadd hw
    simp [handle_tools_call, hname, hargs, toolIs, JValue.isStr, pointTaskHandler, hc, hi, ho,
      hadd, hw, create_vista3d_task, JValue.truthy, submit_task, wrapToolOutcome]
    rw [← String.append_assoc]
    rfl

/-- Witness for C7: calling `submit_vista3d_point_task` without
`point_coordinates` yields the internal-error response naming the
field. -/
theorem C7_tools_call_error_handling_witness :
    (handle_tools_call
        { now_ms := 7, vista3d_tasks_path := "/t", vista3d_processed_path := "/p"
          readJson := fun _ => .error "x"
          queryEnv := { db_path := "/db", dbExists := false, schema := none
                        execute := fun _ _ => .ok [] }
          imageSearch := fun _ => [] }
        []
        { id := some 3, method := "tools/call"
          params := [("name", .str "submit_vista3d_point_task"),
                     ("arguments", .obj [("input_file", .str "/a.nii.gz")])] }).1.outcome =
      .rpcError (-32603) "Internal error: point_coordinates is required" :=
  C7_tools_call_error_handling.2.2.2.1
    { now_ms := 7, vista3d_tasks_path := "/t", vista3d_processed_path := "/p"
      readJson := fun _ => .error "x"
      queryEnv := { db_path := "/db", dbExists := false, schema := none
                    execute := fun _ _ => .ok [] }
      imageSearch := fun _ => [] }
    []
    { id := some 3, method := "tools/call"
      params := [("name", .str "submit_vista3d_point_task"),
                 ("arguments", .obj [("input_file", .str "/a.nii.gz")])] }
    [("input_file", .str "/a.nii.gz")] (by rfl) (by rfl) (by rfl)

/-- C10: a seed point whose `point_type` is neither `"positive"` nor
`"negative"` is silently dropped — the constructed task's single prompt
has both point lists empty and no error is raised — and an
`additional_points` entry whose type is neither value is silently
skipped. -/
theorem C10_invalid_point_type_silently_dropped :
    (∀ (point_coordinates input_file output_directory point_type : JValue) (label : Int)
       (patient_id series_uid : Option JValue) (task_id : Option String) (now_ms : Nat),
        point_type.isStr "positive" = false → point_type.isStr "negative" = false →
          create_vista3d_task point_coordinates input_file output_directory point_type label
              (.arr []) patient_id "MR" series_uid task_id now_ms =
            .ok { task_id := task_id.getD (generate_task_id now_ms "vista3d_point")
                  input_file := input_file, output_directory := output_directory
                  segmentation_type := "point"
                  segmentation_prompts :=
                    [{ target_output_label := label, positive_points := [], negative_points := [] }]
                  modality := "MR"
                  patientId := if pyTruthyOpt patient_id then patient_id else none
                  seriesInstanceUID := if pyTruthyOpt series_uid then series_uid else none }) ∧
    (∀ (prompt : SegPrompt) (fields : List (String × JValue)) (t : JValue) (rest : List JValue),
        fields.lookup "type" = some t →
        t.isStr "positive" = false → t.isStr "negative" = false →
          processAdditionalPoints prompt (.obj fields :: rest) =
            processAdditionalPoints prompt rest) := by
  constructor
  · intro point_coordinates input_file output_directory point_type label patient_id series_uid
      task_id now_ms h1 h2
    simp [create_vista3d_task, h1, h2, JValue.truthy]
  · intro prompt fields t rest hl h1 h2
    simp [processAdditionalPoints, jGetItem, hl, h1, h2]

/-- Witness for C10: a `"neutral"` seed point produces a task with an
empty prompt, and a `"maybe"` additional point is skipped. -/
theorem C10_invalid_point_type_silently_dropped_witness :
    create_vista3d_task (.arr [.num 113, .num 203, .num 96]) (.str "/a.nii.gz") (.str "/out")
        (.str "neutral") 1 (.arr []) none "MR" none none 7 =
      .ok { task_id := (none : Option String).getD (generate_task_id 7 "vista3d_point")
            input_file := .str "/a.nii.gz", output_directory := .str "/out"
            segmentation_type := "point"
            segmentation_prompts :=
              [{ target_output_label := 1, positive_points := [], negative_points := [] }]
            modality := "MR"
            patientId := if pyTruthyOpt none then none else none
            seriesInstanceUID := if pyTruthyOpt none then none else none } ∧
    processAdditionalPoints
        { target_output_label := 1, positive_points := [], negative_points := [] }
        [.obj [("type", .str "maybe"), ("coordinates", .arr [])]] =
      processAdditionalPoints
        { target_output_label := 1, positive_points := [], negative_points := [] } [] :=
  ⟨C10_invalid_point_type_silently_dropped.1 (.arr [.num 113, .num 203, .num 96])
      (.str "/a.nii.gz") (.str "/out") (.str "neutral") 1 none none none 7 (by rfl) (by rfl),
    C10_invalid_point_type_silently_dropped.2
      { target_output_label := 1, positive_points := [], negative_points := [] }
      [("type", .str "maybe"), ("coordinates", .arr [])] (.str "maybe") [] (by rfl) (by rfl)
      (by rfl)⟩

/-- Counterexample to C9 as stated: after the server's submit writes
`/base/tasks-live/Vista3D/vista3d_point_9.tsk`, the immediate probe does
return `pending`, but the record it returns carries only the task id and
a fixed message — no field of it holds the written path, so the claim's
"referencing the exact file path that submit just wrote" fails for the
server probe (the helper probe returns the path in its `file` field). -/
theorem C9_pending_record_counterexample :
    submit_task "/base/tasks-live/Vista3D" none
        (.point { task_id := "vista3d_point_9", input_file := .str "/a.nii.gz"
                  output_directory := .str "/o", segmentation_type := "point"
                  segmentation_prompts := [], modality := "MR" }) [] =
      .ok ("/base/tasks-live/Vista3D/vista3d_point_9.tsk",
           ["/base/tasks-live/Vista3D/vista3d_point_9.tsk"]) ∧
    check_task_status "/base/tasks-live/Vista3D" "/base/tasks-history/Vista3d" "vista3d_point_9"
        ["/base/tasks-live/Vista3D/vista3d_point_9.tsk"] (fun _ => .error "unreadable") =
      { status := "pending", task_id := some "vista3d_point_9"
        message := some "Task is queued for processing" } ∧
    (check_task_status "/base/tasks-live/Vista3D" "/base/tasks-history/Vista3d" "vista3d_point_9"
        ["/base/tasks-live/Vista3D/vista3d_point_9.tsk"] (fun _ => .error "unreadable")).status ≠
      "/base/tasks-live/Vista3D/vista3d_point_9.tsk" ∧
    (check_task_status "/base/tasks-live/Vista3D" "/base/tasks-history/Vista3d" "vista3d_point_9"
        ["/base/tasks-live/Vista3D/vista3d_point_9.tsk"] (fun _ => .error "unreadable")).task_id ≠
      some "/base/tasks-live/Vista3D/vista3d_point_9.tsk" ∧
    (check_task_status "/base/tasks-live/Vista3D" "/base/tasks-history/Vista3d" "vista3d_point_9"
        ["/base/tasks-live/Vista3D/vista3d_point_9.tsk"] (fun _ => .error "unreadable")).message ≠
      some "/base/tasks-live/Vista3D/vista3d_point_9.tsk" ∧
    (check_task_status "/base/tasks-live/Vista3D" "/base/tasks-history/Vista3d" "vista3d_point_9"
        ["/base/tasks-live/Vista3D/vista3d_point_9.tsk"] (fun _ => .error "unreadable")).processed_file =
      none ∧
    (check_task_status "/base/tasks-live/Vista3D" "/base/tasks-history/Vista3d" "vista3d_point_9"
        ["/base/tasks-live/Vista3D/vista3d_point_9.tsk"] (fun _ => .error "unreadable")).output_mask =
      none ∧
    (check_task_status "/base/tasks-live/Vista3D" "/base/tasks-history/Vista3d" "vista3d_point_9"
        ["/base/tasks-live/Vista3D/vista3d_point_9.tsk"] (fun _ => .error "unreadable")).result_error =
      none :=
  ⟨rfl, rfl, by decide, by decide, by decide, rfl, rfl, rfl⟩
